import Mathlib

/-!
Verification of the transcription pipeline of `src/main.py` (a FastAPI app
orchestrating audio download, third-party transcription and caption fallback).

The Python endpoints are shallowly embedded as pure Lean functions:

* JSON values are modelled by `JVal`; Python dicts by association lists
  (`Dict`) with `Dict.get` mirroring `dict.get` (first matching key).
* Python truthiness (`if not x`) is modelled by `JVal.truthy` / `truthyOpt` /
  `truthyStr`; `None`, the empty string and empty containers are falsy.
* External collaborators (yt-dlp, the AssemblyAI upload / submit / poll
  endpoints, the caption scraper) are an explicit environment `Env`; the
  unbounded `while True` polling loop becomes fuel-indexed recursion
  (`pollLoop`), where `none` means the loop is still running after `fuel`
  iterations.
* `HTTPException` is modelled by `HTTPError` carrying status code and detail.
* Each run also returns the list of collaborator calls it made (`Call`), so
  that claims about which network operations happen can be stated.
-/

/-- JSON values, as produced and consumed by the endpoints. -/
inductive JVal where
  | null : JVal
  | bool : Bool → JVal
  | num  : Int → JVal
  | str  : String → JVal
  | arr  : List JVal → JVal
  | obj  : List (String × JVal) → JVal
deriving Repr

/-- A Python dict with string keys, as an association list. -/
def Dict : Type := List (String × JVal)

/-- `d.get(key)`: first value bound to `key`, or `None`. -/
def Dict.get : Dict → String → Option JVal
  | [], _ => none
  | (k, v) :: rest, key => if k = key then some v else Dict.get rest key

/-- Python truthiness of a JSON value: `None`, `False`, `""`, `[]`, `{}` are falsy. -/
def JVal.truthy : JVal → Bool
  | .null   => false
  | .bool b => b
  | .num n  => n != 0
  | .str s  => !s.isEmpty
  | .arr l  => !l.isEmpty
  | .obj l  => !l.isEmpty

/-- Truthiness of `d.get(key)`: `None` (absent key) is falsy. -/
def truthyOpt : Option JVal → Bool
  | none => false
  | some v => v.truthy

/-- Truthiness of an optional environment string (`os.getenv` result). -/
def truthyStr : Option String → Bool
  | none => false
  | some s => !s.isEmpty

/-- An HTTP error response (`HTTPException(status_code, detail)`). -/
structure HTTPError where
  status : Nat
  detail : String
deriving DecidableEq, Repr

/-- The collaborator calls the `/transcribe` endpoint can make. -/
inductive Call where
  | ytdlp    -- subprocess.run yt-dlp
  | upload   -- POST /v2/upload
  | submit   -- POST /v2/transcript
  | poll     -- GET /v2/transcript/{id}
  | captions -- YouTubeTranscriptApi.get_transcript
deriving DecidableEq, Repr

/-- A caption segment as returned by the caption collaborator:
`{text, start, duration}`; `start`/`duration` are opaque payload. -/
structure CaptionSegment where
  text : String
  start : JVal
  duration : JVal
deriving Repr

/-- The external world of one `/transcribe` request: configuration and the
responses each collaborator would give. -/
structure Env where
  /-- `ASSEMBLYAI_API_KEY` from the environment (`os.getenv`). -/
  assemblyKey : Option String
  /-- Outcome of the yt-dlp subprocess; `.error msg` models
  `subprocess.CalledProcessError` with message `msg`. -/
  ytdlp : Except String Unit
  /-- JSON body returned by the upload endpoint. -/
  uploadResp : Dict
  /-- JSON body returned by the job-submission endpoint. -/
  submitResp : Dict
  /-- JSON body returned by the `k`-th status poll. -/
  pollResp : Nat → Dict
  /-- Caption scrape result: segments, or a raised exception's message. -/
  captionsResp : Except String (List CaptionSegment)

/-- `time.sleep(5)` between status polls: the fixed polling interval. -/
def sleepSecondsBetweenPolls : Nat := 5

/-- Does `status_resp.get("status")` equal the string `s`? -/
def isStatus (statusResp : Dict) (s : String) : Bool :=
  match statusResp.get "status" with
  | some (JVal.str t) => t = s
  | _ => false

/-- The JSON body built on a `completed` poll:
`{"transcript": resp.get("text"), "paragraphs": resp.get("paragraphs", []),
"speaker_labels": resp.get("utterances", [])}`. -/
def buildTranscriptResponse (statusResp : Dict) : Dict :=
  [("transcript", (statusResp.get "text").getD JVal.null),
   ("paragraphs", (statusResp.get "paragraphs").getD (JVal.arr [])),
   ("speaker_labels", (statusResp.get "utterances").getD (JVal.arr []))]

/-- The `while True` polling loop (step 4 of `/transcribe`), indexed by fuel:
`k` counts polls already made; result `none` means the loop is still running
after `fuel` further iterations. Also returns the poll calls made. -/
def pollLoop (env : Env) : Nat → Nat → Option (Except HTTPError Dict) × List Call
  | 0, _ => (none, [])
  | fuel + 1, k =>
    let statusResp := env.pollResp k
    if isStatus statusResp "completed" then
      (some (.ok (buildTranscriptResponse statusResp)), [.poll])
    else if isStatus statusResp "error" then
      (some (.error ⟨500, "Transcription failed"⟩), [.poll])
    else
      let r := pollLoop env fuel (k + 1)
      (r.1, .poll :: r.2)

/-- The `/transcribe` endpoint (`download_and_transcribe_audio` in
`src/main.py`): validates the payload and API key, downloads audio with
yt-dlp, uploads it, submits a transcription job and polls until done.
Returns the response (`none` if the polling loop is still running after
`fuel` polls) together with the list of collaborator calls made. -/
def download_and_transcribe_audio (env : Env) (payload : Dict) (fuel : Nat) :
    Option (Except HTTPError Dict) × List Call :=
  if !truthyOpt (payload.get "video_id") then
    (some (.error ⟨400, "Missing 'video_id' in request body"⟩), [])
  else if !truthyStr env.assemblyKey then
    (some (.error ⟨500, "ASSEMBLYAI_API_KEY not set"⟩), [])
  else
    match env.ytdlp with
    | .error e => (some (.error ⟨500, "yt-dlp failed: " ++ e⟩), [.ytdlp])
    | .ok _ =>
      if !truthyOpt (env.uploadResp.get "upload_url") then
        (some (.error ⟨500, "AssemblyAI upload error"⟩), [.ytdlp, .upload])
      else if !truthyOpt (env.submitResp.get "id") then
        (some (.error ⟨500, "Transcription request failed"⟩),
         [.ytdlp, .upload, .submit])
      else
        let r := pollLoop env fuel 0
        (r.1, [.ytdlp, .upload, .submit] ++ r.2)

/-- A caption segment rendered back to JSON for the response body. -/
def segToJVal (s : CaptionSegment) : JVal :=
  .obj [("text", .str s.text), ("start", s.start), ("duration", s.duration)]

/-- The `/captions` endpoint (`fallback_to_captions` in `src/main.py`):
scrapes captions and returns `{"captions": " ".join(texts), "segments": segs}`,
or a 500 error when the scrape raises. -/
def fallback_to_captions (captionsResp : Except String (List CaptionSegment)) :
    Except HTTPError Dict :=
  match captionsResp with
  | .error e => .error ⟨500, "Captions error: " ++ e⟩
  | .ok segments =>
    .ok [("captions",
          JVal.str (String.intercalate " " (segments.map (fun s => s.text)))),
         ("segments", JVal.arr (segments.map segToJVal))]

/-- The `/summarize` endpoint (`generate_video_summary` in `src/main.py`):
echoes its payload back unchanged. -/
def generate_video_summary (payload : Dict) : Dict := payload

/-! ### Concrete fixtures used by witnesses and counterexamples -/

/-- A well-formed `/transcribe` payload: `{"video_id": "abc123"}`. -/
def payloadAbc : Dict := [("video_id", JVal.str "abc123")]

/-- The same video id with an extra ignored field. -/
def payloadAbcExtra : Dict :=
  [("video_id", JVal.str "abc123"), ("note", JVal.bool true)]

/-- A poll response for a finished job: `{"status": "completed", "text": "Hi there"}`. -/
def goodPollResp : Dict :=
  [("status", JVal.str "completed"), ("text", JVal.str "Hi there")]

/-- An environment where every collaborator behaves: the key is set, yt-dlp
succeeds, upload and submission return their references, the first poll is
already `completed`. -/
def env4 : Env where
  assemblyKey := some "key"
  ytdlp := .ok ()
  uploadResp := [("upload_url", JVal.str "https://cdn/upload/1")]
  submitResp := [("id", JVal.str "job-1")]
  pollResp := fun _ => goodPollResp
  captionsResp := .ok []

/-- `env4` with the API key missing from the environment. -/
def envNoKey : Env := { env4 with assemblyKey := none }

/-- `env4` with yt-dlp failing (`CalledProcessError` with message `boom`). -/
def envDownloadFail : Env := { env4 with ytdlp := .error "boom" }

/-- `env4` with an upload response that carries no `upload_url`. -/
def envNoUploadUrl : Env := { env4 with uploadResp := [] }

/-- `env4` with a submission response that carries no job `id`. -/
def envNoJobId : Env := { env4 with submitResp := [] }

/-- A poll response of a job that is never done: `{"status": "processing"}`. -/
def processingPollResp : Dict := [("status", JVal.str "processing")]

/-- `env4` but the job never reaches a terminal status. -/
def envNeverDone : Env := { env4 with pollResp := fun _ => processingPollResp }

/-- A completed poll response with no `text`, `paragraphs` or `utterances`. -/
def noTextPollResp : Dict := [("status", JVal.str "completed")]

/-- `env4` but the completed job result carries no text and no segments. -/
def envNoText : Env := { env4 with pollResp := fun _ => noTextPollResp }

/-- The spec's caption scenario:
`[{text:"Hello",start:0,duration:1}, {text:"world",start:1,duration:1}]`. -/
def helloWorldSegments : List CaptionSegment :=
  [⟨"Hello", .num 0, .num 1⟩, ⟨"world", .num 1, .num 1⟩]

/-! ### Helper lemmas -/

/-- Every call recorded by the polling loop is a poll. -/
theorem pollLoop_trace_polls (env : Env) (fuel : Nat) :
    ∀ k, ∀ c ∈ (pollLoop env fuel k).2, c = Call.poll := by
  induction fuel with
  | zero => intro k c hc; simp [pollLoop] at hc
  | succ n ih =>
    intro k c hc
    simp only [pollLoop] at hc
    cases h1 : isStatus (env.pollResp k) "completed" with
    | true => simp [h1] at hc; simp [hc]
    | false =>
      cases h2 : isStatus (env.pollResp k) "error" with
      | true => simp [h1, h2] at hc; simp [hc]
      | false =>
        simp [h1, h2] at hc
        rcases hc with hc | hc
        · exact hc
        · exact ih (k + 1) c hc

/-- The transcribe endpoint never invokes the caption collaborator. -/
theorem transcribe_trace_no_captions (env : Env) (payload : Dict) (fuel : Nat) :
    Call.captions ∉ (download_and_transcribe_audio env payload fuel).2 := by
  intro h
  unfold download_and_transcribe_audio at h
  cases hv : truthyOpt (payload.get "video_id") <;> simp [hv] at h
  cases hk : truthyStr env.assemblyKey <;> simp [hk] at h
  cases hd : env.ytdlp with
  | error e => simp [hd] at h
  | ok u =>
    simp only [hd] at h
    cases hup : truthyOpt (env.uploadResp.get "upload_url") <;> simp [hup] at h
    cases hid : truthyOpt (env.submitResp.get "id") <;> simp [hid] at h
    exact Call.noConfusion (pollLoop_trace_polls env fuel 0 Call.captions h)

/-! ### Claims -/

/-- C8: the summarize operation returns exactly the payload it received,
unchanged — it is the identity function on its input. -/
theorem C8_summarize_is_identity (payload : Dict) :
    generate_video_summary payload = payload := rfl

/-- C9: when the caption collaborator returns an empty sequence of segments,
the caption endpoint succeeds and returns an empty captions string and an
empty segments sequence. -/
theorem C9_empty_segments_ok :
    fallback_to_captions (.ok []) =
      .ok [("captions", JVal.str ""), ("segments", JVal.arr [])] := rfl

/-- C3 counterexample: on the spec's own scenario (segments `Hello`, `world`)
the caption endpoint's response has no `transcript`, `paragraphs`,
`speaker_labels` or `source` fields at all — the joined text is returned
under the key `captions` — so the claimed `TranscriptResult` shape with
`source = caption_fallback` is not what the code produces. -/
theorem C3_counterexample :
    ¬ ∃ d, fallback_to_captions (.ok helloWorldSegments) = .ok d ∧
        d.get "transcript" = some (JVal.str "Hello world") ∧
        d.get "paragraphs" = some (JVal.arr []) ∧
        d.get "speaker_labels" = some (JVal.arr []) ∧
        d.get "source" = some (JVal.str "caption_fallback") := by
  rintro ⟨d, hd, -, -, -, hsrc⟩
  rw [show fallback_to_captions (.ok helloWorldSegments) =
      .ok [("captions", JVal.str "Hello world"),
           ("segments", JVal.arr (helloWorldSegments.map segToJVal))] from rfl] at hd
  injection hd with hd
  subst hd
  simp [Dict.get] at hsrc

/-- C3 (amended): for every sequence of caption segments the captions
endpoint returns the segment texts joined by single spaces in original
order — under the response key `captions`, together with the segments
echoed back; the response carries no `transcript`, `source`, `paragraphs`
or `speaker_labels` fields (the endpoint does not build a TranscriptResult). -/
theorem C3_captions_space_joined (segs : List CaptionSegment) (_hne : segs ≠ []) :
    fallback_to_captions (.ok segs) =
      .ok [("captions",
            JVal.str (String.intercalate " " (segs.map (fun s => s.text)))),
           ("segments", JVal.arr (segs.map segToJVal))] ∧
    ∀ d, fallback_to_captions (.ok segs) = .ok d →
      d.get "captions" =
          some (JVal.str (String.intercalate " " (segs.map (fun s => s.text)))) ∧
      d.get "transcript" = none ∧
      d.get "source" = none ∧
      d.get "paragraphs" = none ∧
      d.get "speaker_labels" = none := by
  refine ⟨rfl, fun d hd => ?_⟩
  rw [show fallback_to_captions (.ok segs) =
      .ok [("captions",
            JVal.str (String.intercalate " " (segs.map (fun s => s.text)))),
           ("segments", JVal.arr (segs.map segToJVal))] from rfl] at hd
  injection hd with hd
  subst hd
  exact ⟨rfl, rfl, rfl, rfl, rfl⟩

/-- C3 witness: the amended claim evaluated on the spec's `Hello` / `world`
scenario; the joined text is `Hello world`. -/
theorem C3_captions_space_joined_witness :
    fallback_to_captions (.ok helloWorldSegments) =
      .ok [("captions", JVal.str "Hello world"),
           ("segments", JVal.arr (helloWorldSegments.map segToJVal))] :=
  ((C3_captions_space_joined helloWorldSegments
    (by simp [helloWorldSegments])).1).trans (by rfl)

/-- C4 counterexample: with every collaborator behaving and the first poll
`completed` with text `Hi there`, the response body has keys `transcript`,
`paragraphs` and `speaker_labels` only — there is no `source` field, so the
claimed `source = audio_transcription` does not hold. -/
theorem C4_counterexample :
    ¬ ∃ d, (download_and_transcribe_audio env4 payloadAbc 1).1 = some (.ok d) ∧
        d.get "source" = some (JVal.str "audio_transcription") := by
  rintro ⟨d, hd, hsrc⟩
  rw [show (download_and_transcribe_audio env4 payloadAbc 1).1 =
      some (.ok (buildTranscriptResponse goodPollResp)) from rfl] at hd
  injection hd with hd
  injection hd with hd
  subst hd
  simp [buildTranscriptResponse, Dict.get, goodPollResp] at hsrc

/-- C4 (amended): on a `completed` poll response the endpoint returns a body
whose `transcript` is copied verbatim from the job result's `text` (null when
missing), and whose `paragraphs` and `speaker_labels` default to empty
sequences when missing from the job result; the body carries no `source`
field. -/
theorem C4_completed_response (env : Env) (payload : Dict) (fuel : Nat)
    (hvid : truthyOpt (payload.get "video_id") = true)
    (hkey : truthyStr env.assemblyKey = true)
    (hdl : env.ytdlp = .ok ())
    (hup : truthyOpt (env.uploadResp.get "upload_url") = true)
    (hid : truthyOpt (env.submitResp.get "id") = true)
    (hst : isStatus (env.pollResp 0) "completed" = true) :
    (download_and_transcribe_audio env payload (fuel + 1)).1 =
      some (.ok (buildTranscriptResponse (env.pollResp 0))) ∧
    (buildTranscriptResponse (env.pollResp 0)).get "transcript" =
      some (((env.pollResp 0).get "text").getD JVal.null) ∧
    (buildTranscriptResponse (env.pollResp 0)).get "paragraphs" =
      some (((env.pollResp 0).get "paragraphs").getD (JVal.arr [])) ∧
    (buildTranscriptResponse (env.pollResp 0)).get "speaker_labels" =
      some (((env.pollResp 0).get "utterances").getD (JVal.arr [])) ∧
    (buildTranscriptResponse (env.pollResp 0)).get "source" = none := by
  refine ⟨?_, rfl, rfl, rfl, rfl⟩
  unfold download_and_transcribe_audio
  simp only [hvid, hkey, hdl, hup, hid, Bool.not_true]
  simp only [pollLoop, hst, if_true]
  simp

/-- C4 witness: the amended claim evaluated in `env4`, whose completed job
result is `{"status": "completed", "text": "Hi there"}`. -/
theorem C4_completed_response_witness :
    (download_and_transcribe_audio env4 payloadAbc 1).1 =
      some (.ok (buildTranscriptResponse goodPollResp)) ∧
    (buildTranscriptResponse goodPollResp).get "transcript" =
      some (JVal.str "Hi there") ∧
    (buildTranscriptResponse goodPollResp).get "paragraphs" =
      some (JVal.arr []) ∧
    (buildTranscriptResponse goodPollResp).get "speaker_labels" =
      some (JVal.arr []) ∧
    (buildTranscriptResponse goodPollResp).get "source" = none :=
  C4_completed_response env4 payloadAbc 0 rfl rfl rfl rfl rfl rfl

/-- C10: on a completed poll response that lacks a `text` field, the
`transcript` field of the returned body is the null value — not an empty
string — while `paragraphs` and `speaker_labels` default to empty sequences
in the same case. -/
theorem C10_missing_text_is_null (env : Env) (payload : Dict) (fuel : Nat)
    (hvid : truthyOpt (payload.get "video_id") = true)
    (hkey : truthyStr env.assemblyKey = true)
    (hdl : env.ytdlp = .ok ())
    (hup : truthyOpt (env.uploadResp.get "upload_url") = true)
    (hid : truthyOpt (env.submitResp.get "id") = true)
    (hst : isStatus (env.pollResp 0) "completed" = true)
    (htext : (env.pollResp 0).get "text" = none)
    (hpar : (env.pollResp 0).get "paragraphs" = none)
    (hutt : (env.pollResp 0).get "utterances" = none) :
    ∃ d, (download_and_transcribe_audio env payload (fuel + 1)).1 =
        some (.ok d) ∧
      d.get "transcript" = some JVal.null ∧
      d.get "transcript" ≠ some (JVal.str "") ∧
      d.get "paragraphs" = some (JVal.arr []) ∧
      d.get "speaker_labels" = some (JVal.arr []) := by
  refine ⟨buildTranscriptResponse (env.pollResp 0),
    (C4_completed_response env payload fuel hvid hkey hdl hup hid hst).1, ?_, ?_, ?_, ?_⟩
  · show Dict.get _ "transcript" = _
    simp [buildTranscriptResponse, Dict.get, htext]
  · show Dict.get _ "transcript" ≠ _
    simp [buildTranscriptResponse, Dict.get, htext]
  · show Dict.get _ "paragraphs" = _
    simp [buildTranscriptResponse, Dict.get, hpar]
  · show Dict.get _ "speaker_labels" = _
    simp [buildTranscriptResponse, Dict.get, hutt]

/-- C5: when the transcription-service API key is absent from the
configuration, the transcribe endpoint makes no collaborator call at all
(in particular no audio download), and — for any payload carrying a
video id — fails with the configuration error `ASSEMBLYAI_API_KEY not set`. -/
theorem C5_missing_key_fails_before_network (env : Env) (payload : Dict)
    (fuel : Nat) (hkey : env.assemblyKey = none) :
    (download_and_transcribe_audio env payload fuel).2 = [] ∧
    (truthyOpt (payload.get "video_id") = true →
      download_and_transcribe_audio env payload fuel =
        (some (.error ⟨500, "ASSEMBLYAI_API_KEY not set"⟩), [])) := by
  unfold download_and_transcribe_audio
  cases hv : truthyOpt (payload.get "video_id") <;>
    simp [hv, hkey, truthyStr]

/-- C5 witness: with the key unset and payload `{"video_id": "abc123"}`, the
endpoint performs no call and returns the configuration error. -/
theorem C5_missing_key_fails_before_network_witness :
    download_and_transcribe_audio envNoKey payloadAbc 1 =
      (some (.error ⟨500, "ASSEMBLYAI_API_KEY not set"⟩), []) :=
  (C5_missing_key_fails_before_network envNoKey payloadAbc 1 rfl).2 rfl

/-- C6: a missing `upload_url` in the upload response fails the request with
the upload error, and a missing `id` in the submission response fails it
with the submission error; in neither case does a poll call happen. -/
theorem C6_upload_submit_errors (env : Env) (payload : Dict) (fuel : Nat)
    (hvid : truthyOpt (payload.get "video_id") = true)
    (hkey : truthyStr env.assemblyKey = true)
    (hdl : env.ytdlp = .ok ()) :
    (truthyOpt (env.uploadResp.get "upload_url") = false →
      download_and_transcribe_audio env payload fuel =
        (some (.error ⟨500, "AssemblyAI upload error"⟩),
         [.ytdlp, .upload]) ∧
      Call.poll ∉ (download_and_transcribe_audio env payload fuel).2) ∧
    (truthyOpt (env.uploadResp.get "upload_url") = true →
     truthyOpt (env.submitResp.get "id") = false →
      download_and_transcribe_audio env payload fuel =
        (some (.error ⟨500, "Transcription request failed"⟩),
         [.ytdlp, .upload, .submit]) ∧
      Call.poll ∉ (download_and_transcribe_audio env payload fuel).2) := by
  constructor
  · intro hup
    have he : download_and_transcribe_audio env payload fuel =
        (some (.error ⟨500, "AssemblyAI upload error"⟩), [.ytdlp, .upload]) := by
      unfold download_and_transcribe_audio
      simp [hvid, hkey, hdl, hup]
    exact ⟨he, by rw [he]; decide⟩
  · intro hup hid
    have he : download_and_transcribe_audio env payload fuel =
        (some (.error ⟨500, "Transcription request failed"⟩),
         [.ytdlp, .upload, .submit]) := by
      unfold download_and_transcribe_audio
      simp [hvid, hkey, hdl, hup, hid]
    exact ⟨he, by rw [he]; decide⟩

/-- C6 witness: both failure modes evaluated concretely — an empty upload
response yields the upload error, an empty submission response yields the
submission error, and neither run polls. -/
theorem C6_upload_submit_errors_witness :
    (download_and_transcribe_audio envNoUploadUrl payloadAbc 1 =
       (some (.error ⟨500, "AssemblyAI upload error"⟩), [.ytdlp, .upload]) ∧
     Call.poll ∉ (download_and_transcribe_audio envNoUploadUrl payloadAbc 1).2) ∧
    (download_and_transcribe_audio envNoJobId payloadAbc 1 =
       (some (.error ⟨500, "Transcription request failed"⟩),
        [.ytdlp, .upload, .submit]) ∧
     Call.poll ∉ (download_and_transcribe_audio envNoJobId payloadAbc 1).2) :=
  ⟨(C6_upload_submit_errors envNoUploadUrl payloadAbc 1 rfl rfl rfl).1 rfl,
   (C6_upload_submit_errors envNoJobId payloadAbc 1 rfl rfl rfl).2 rfl rfl⟩

/-- C1 counterexample: with the download step failing (yt-dlp error `boom`)
the endpoint surfaces the error directly — and the caption collaborator is
never called, so no fallback is attempted before the error reaches the
caller. -/
theorem C1_counterexample :
    (download_and_transcribe_audio envDownloadFail payloadAbc 1).1 =
      some (.error ⟨500, "yt-dlp failed: boom"⟩) ∧
    Call.captions ∉ (download_and_transcribe_audio envDownloadFail payloadAbc 1).2 := by
  exact ⟨rfl, by decide⟩

/-- C1 (amended): the transcribe endpoint never attempts the caption
fallback — the caption collaborator is absent from every run's call trace —
and a primary-path failure (here: the audio download) is surfaced directly
to the caller as an error. -/
theorem C1_no_fallback_on_primary_failure (env : Env) (payload : Dict)
    (fuel : Nat) :
    Call.captions ∉ (download_and_transcribe_audio env payload fuel).2 ∧
    (∀ e, env.ytdlp = .error e →
      truthyOpt (payload.get "video_id") = true →
      truthyStr env.assemblyKey = true →
      download_and_transcribe_audio env payload fuel =
        (some (.error ⟨500, "yt-dlp failed: " ++ e⟩), [.ytdlp])) := by
  refine ⟨transcribe_trace_no_captions env payload fuel, ?_⟩
  intro e hdl hvid hkey
  unfold download_and_transcribe_audio
  simp [hvid, hkey, hdl]

/-- C1 witness: the amended claim evaluated with a failing download. -/
theorem C1_no_fallback_on_primary_failure_witness :
    Call.captions ∉ (download_and_transcribe_audio envDownloadFail payloadAbc 1).2 ∧
    download_and_transcribe_audio envDownloadFail payloadAbc 1 =
      (some (.error ⟨500, "yt-dlp failed: boom"⟩), [.ytdlp]) :=
  ⟨(C1_no_fallback_on_primary_failure envDownloadFail payloadAbc 1).1,
   (C1_no_fallback_on_primary_failure envDownloadFail payloadAbc 1).2
     "boom" rfl rfl rfl⟩

/-- With a job that always reports `processing`, the polling loop runs out of
any amount of fuel, polling once per iteration, without producing a result. -/
theorem pollLoop_processing_never_returns (fuel : Nat) :
    ∀ k, pollLoop envNeverDone fuel k = (none, List.replicate fuel Call.poll) := by
  induction fuel with
  | zero => intro k; rfl
  | succ n ih =>
    intro k
    have h1 : isStatus (envNeverDone.pollResp k) "completed" = false := rfl
    have h2 : isStatus (envNeverDone.pollResp k) "error" = false := rfl
    simp only [pollLoop, h1, h2, ih (k + 1), Bool.false_eq_true, if_false,
      List.replicate]

/-- C2: the polling loop enforces no timeout at all — when the external job
never reaches a terminal status (it always reports `processing`), the
endpoint never returns, however many poll iterations it is allowed, making
one status check per iteration. -/
theorem C2_no_timeout_polls_forever (fuel : Nat) :
    (download_and_transcribe_audio envNeverDone payloadAbc fuel).1 = none ∧
    (download_and_transcribe_audio envNeverDone payloadAbc fuel).2.count
      Call.poll = fuel := by
  have he : download_and_transcribe_audio envNeverDone payloadAbc fuel =
      (none, [Call.ytdlp, .upload, .submit] ++ List.replicate fuel Call.poll) := by
    have hv : truthyOpt (payloadAbc.get "video_id") = true := rfl
    have hk : truthyStr envNeverDone.assemblyKey = true := rfl
    have hd : envNeverDone.ytdlp = .ok () := rfl
    have hup : truthyOpt (envNeverDone.uploadResp.get "upload_url") = true := rfl
    have hid : truthyOpt (envNeverDone.submitResp.get "id") = true := rfl
    unfold download_and_transcribe_audio
    simp [hv, hk, hd, hup, hid, pollLoop_processing_never_returns fuel 0]
  rw [he]
  refine ⟨rfl, ?_⟩
  simp [List.count_append, List.count_replicate]

/-- C7: with collaborator behaviour fixed, two transcribe runs whose payloads
carry the same video id produce identical responses — in particular equal
`source` and `transcript` fields on success. -/
theorem C7_deterministic (env : Env) (payload1 payload2 : Dict) (fuel : Nat)
    (h : payload1.get "video_id" = payload2.get "video_id") :
    download_and_transcribe_audio env payload1 fuel =
      download_and_transcribe_audio env payload2 fuel ∧
    (∀ d1 d2,
      (download_and_transcribe_audio env payload1 fuel).1 = some (.ok d1) →
      (download_and_transcribe_audio env payload2 fuel).1 = some (.ok d2) →
      d1.get "source" = d2.get "source" ∧
      d1.get "transcript" = d2.get "transcript") := by
  have he : download_and_transcribe_audio env payload1 fuel =
      download_and_transcribe_audio env payload2 fuel := by
    unfold download_and_transcribe_audio
    rw [h]
  refine ⟨he, fun d1 d2 h1 h2 => ?_⟩
  rw [he, h2] at h1
  injection h1 with h1
  injection h1 with h1
  subst h1
  exact ⟨rfl, rfl⟩

/-- C7 witness: two payloads with the same video id (one with an extra
ignored field) give the same response in `env4`. -/
theorem C7_deterministic_witness :
    download_and_transcribe_audio env4 payloadAbc 1 =
      download_and_transcribe_audio env4 payloadAbcExtra 1 :=
  (C7_deterministic env4 payloadAbc payloadAbcExtra 1 rfl).1

/-- C10 witness: in an environment whose completed poll response is just
`{"status": "completed"}`, the body's transcript is null (not the empty
string) and the sequence fields are empty. -/
theorem C10_missing_text_is_null_witness :
    ∃ d, (download_and_transcribe_audio envNoText payloadAbc 1).1 =
        some (.ok d) ∧
      d.get "transcript" = some JVal.null ∧
      d.get "transcript" ≠ some (JVal.str "") ∧
      d.get "paragraphs" = some (JVal.arr []) ∧
      d.get "speaker_labels" = some (JVal.arr []) :=
  C10_missing_text_is_null envNoText payloadAbc 0 rfl rfl rfl rfl rfl rfl rfl
    rfl rfl
